import Mathlib

/-!
# Verification of the continuous audio-chunking pipeline of Sphere AI Clone

Shallow embedding of the client-side `BackendService` class (the continuous
recording system: capture queue, accumulation buffer, flush loop, speech
detector wiring, stop path, health check), translated from the TypeScript
source.  Browser asynchrony is made explicit: `sendAccumulatedAudio` only
*initiates* a flush (it hands the combined blob to a `FileReader` and
returns); the network upload and the buffer clearing happen later, when the
reader's `onloadend` callback fires, which we model as a separate
`completePendingUpload` step.  All mutations of the service state happen on
one cooperative timeline, so a run of the system is a list of events applied
in sequence to the state.
-/

namespace SphereAI

/-- An audio fragment (one `Blob` emitted by `MediaRecorder.ondataavailable`),
identified by an index; blobs are opaque and only concatenated. -/
abbrev Frag := Nat

/-- One call to `makeRequest('/recording/chunk', ...)` as issued by the
`onloadend` callback inside `sendAccumulatedAudio`.  `recordingId` and
`chunkCount` are read from the *current* service state when the callback
fires (`this.currentRecordingId`, `this.accumulatedAudio.length`), while
`payload` is the blob combined at flush initiation. -/
structure UploadCall where
  recordingId : Option String
  payload : List Frag
  trigger : String
  chunkCount : Nat
  succeeded : Bool
deriving Repr, DecidableEq

/-- A `FileReader.onloadend` callback scheduled by `sendAccumulatedAudio`
but not yet fired: it captures the combined blob and the trigger string. -/
structure PendingUpload where
  payload : List Frag
  trigger : String
deriving Repr, DecidableEq

/-- The mutable fields of the `BackendService` singleton that the continuous
recording system touches, plus observation logs (`uploadCalls`,
`errorsLogged`) recording the chunk-upload requests made and the upload
errors logged. -/
structure ServiceState where
  currentRecordingId : Option String
  mediaRecorderActive : Bool
  isListening : Bool
  audioQueue : List Frag
  audioChunks : List Frag
  accumulatedAudio : List Frag
  lastProcessTime : Nat
  phraseTimeout : Nat
  processingActive : Bool
  transcriptionActive : Bool
  pending : List PendingUpload
  uploadCalls : List UploadCall
  errorsLogged : Nat
deriving Repr, DecidableEq

/-- The freshly constructed service: no recording, empty buffers,
`phraseTimeout = 3000` ms as in the field initializer. -/
def initState : ServiceState :=
  { currentRecordingId := none
    mediaRecorderActive := false
    isListening := false
    audioQueue := []
    audioChunks := []
    accumulatedAudio := []
    lastProcessTime := 0
    phraseTimeout := 3000
    processingActive := false
    transcriptionActive := false
    pending := []
    uploadCalls := []
    errorsLogged := 0 }

/-- `sendAccumulatedAudio(trigger)`: returns unchanged (logging "No
accumulated audio to send") when the buffer is empty or there is no current
recording id; otherwise combines the buffered fragments into one blob and
hands it to a `FileReader`, scheduling the `onloadend` upload callback.  The
buffer is *not* cleared here. -/
def sendAccumulatedAudio (trigger : String) (s : ServiceState) : ServiceState :=
  if s.accumulatedAudio = [] ∨ s.currentRecordingId = none then s
  else { s with pending := s.pending ++ [⟨s.accumulatedAudio, trigger⟩] }

/-- The `onloadend` callback of the oldest scheduled flush fires with the
given network outcome: it issues the chunk-upload request (reading
`this.currentRecordingId` and `this.accumulatedAudio.length` at this later
time); on success it clears the accumulation buffer, on failure it logs the
error and leaves the buffer untouched. -/
def completePendingUpload (success : Bool) (s : ServiceState) : ServiceState :=
  match s.pending with
  | [] => s
  | p :: rest =>
    let call : UploadCall :=
      ⟨s.currentRecordingId, p.payload, p.trigger, s.accumulatedAudio.length, success⟩
    if success then
      { s with pending := rest, uploadCalls := s.uploadCalls ++ [call],
               accumulatedAudio := [] }
    else
      { s with pending := rest, uploadCalls := s.uploadCalls ++ [call],
               errorsLogged := s.errorsLogged + 1 }

/-- Flush initiation immediately followed by its upload completing with the
given outcome, with nothing interleaved in between (the common, synchronous
interleaving of `sendAccumulatedAudio`). -/
def sendAccumulatedAudioSync (success : Bool) (trigger : String)
    (s : ServiceState) : ServiceState :=
  completePendingUpload success (sendAccumulatedAudio trigger s)

/-- The body of the `setInterval` callback installed by
`startContinuousProcessing`, run at time `now` (ms): if the capture queue is
non-empty, drain it into the accumulation buffer, initiate a
`"phrase_timeout"` flush when more than `phraseTimeout` ms have passed since
`lastProcessTime`, and set `lastProcessTime := now`; otherwise, when the
buffer is non-empty and more than `phraseTimeout` ms have passed, initiate an
`"idle_timeout"` flush (without updating `lastProcessTime`). -/
def processingTick (now : Nat) (s : ServiceState) : ServiceState :=
  if s.audioQueue = [] then
    if s.accumulatedAudio ≠ [] ∧ now - s.lastProcessTime > s.phraseTimeout then
      sendAccumulatedAudio "idle_timeout" s
    else s
  else
    if now - s.lastProcessTime > s.phraseTimeout then
      { sendAccumulatedAudio "phrase_timeout"
          { s with audioQueue := [],
                   accumulatedAudio := s.accumulatedAudio ++ s.audioQueue }
        with lastProcessTime := now }
    else
      { s with audioQueue := [],
               accumulatedAudio := s.accumulatedAudio ++ s.audioQueue,
               lastProcessTime := now }

/-- `mediaRecorder.ondataavailable`: a blob of the given size arrives; when
its size is positive it is appended to the capture queue and to the
whole-session chunk list. -/
def ondataavailable (size : Nat) (frag : Frag) (s : ServiceState) : ServiceState :=
  if size > 0 then
    { s with audioQueue := s.audioQueue ++ [frag],
             audioChunks := s.audioChunks ++ [frag] }
  else s

/-- One entry of a `SpeechRecognitionResultList`. -/
structure SpeechResult where
  isFinal : Bool
  transcript : String
deriving Repr, DecidableEq

/-- The final transcript accumulated by `speechRecognition.onresult`:
concatenation of the transcripts of the final results, in order. -/
def finalTranscriptOf (results : List SpeechResult) : String :=
  results.foldl (fun acc r => if r.isFinal then acc ++ r.transcript else acc) ""

/-- Truthiness of `finalTranscript.trim()` in the source: the trimmed string
is non-empty exactly when the transcript contains a non-whitespace
character. -/
def trimTruthy (t : String) : Bool :=
  t.data.any (fun c => ¬ c.isWhitespace)

/-- `speechRecognition.onresult`: when the concatenated final transcript is
non-blank, initiates a flush passing the *transcript text* as the trigger
argument of `sendAccumulatedAudio`. -/
def onresult (results : List SpeechResult) (s : ServiceState) : ServiceState :=
  if trimTruthy (finalTranscriptOf results) then
    sendAccumulatedAudio (finalTranscriptOf results) s
  else s

/-- The successful path of `startRecording` after the backend returned
`recording_id = rid` at time `now`: store the id, reset the chunk lists and
the continuous-recording state, start transcription polling when enabled,
start speech recognition, start the `MediaRecorder` and the processing
loop. -/
def startRecording (rid : String) (now : Nat) (transcriptionEnabled : Bool)
    (s : ServiceState) : ServiceState :=
  { s with currentRecordingId := some rid
           audioChunks := []
           audioQueue := []
           accumulatedAudio := []
           lastProcessTime := now
           transcriptionActive := transcriptionEnabled
           isListening := true
           mediaRecorderActive := true
           processingActive := true }

/-- The externally visible actions taken by `stopRecording`, in program
order. -/
inductive StopStep
  | stopProcessingLoop
  | stopSpeech
  | finalFlush
  | stopTranscription
  | stopRecorder
  | stopTracks
  | backendStop
  | cleanup
deriving Repr, DecidableEq

/-- Outcome of `stopRecording`: the state reached, the steps performed in
order, and the error thrown out of the method, if any. -/
structure StopResult where
  state : ServiceState
  steps : List StopStep
  error : Option String
deriving Repr, DecidableEq

/-- `stopRecording`, with two fault switches: `recorderStopThrows` makes
`mediaRecorder.stop()` throw, `backendStopOk = false` makes the
`/recording/stop` request throw.  The whole body sits in a single
`try` block (only `speechRecognition.stop()` has its own inner handler), so
an exception aborts the remaining steps and propagates out.  Order of the
body: stop the processing interval; stop speech recognition; flush the
accumulation buffer with trigger `"Final chunk"` when non-empty; stop
transcription polling; stop the `MediaRecorder`; stop the stream tracks;
send the backend stop request; null out the local session state. -/
def stopRecording (recorderStopThrows : Bool) (backendStopOk : Bool)
    (s : ServiceState) : StopResult :=
  if s.mediaRecorderActive = false ∨ s.currentRecordingId = none then
    ⟨s, [], some "No active recording"⟩
  else
    let s1 := { s with processingActive := false }
    let s2 := { s1 with isListening := false }
    let flushNeeded := s2.accumulatedAudio ≠ []
    let s3 := if flushNeeded then sendAccumulatedAudio "Final chunk" s2 else s2
    let steps3 := [StopStep.stopProcessingLoop, StopStep.stopSpeech]
      ++ (if flushNeeded then [StopStep.finalFlush] else [])
    let s4 := { s3 with transcriptionActive := false }
    let steps4 := steps3 ++ [StopStep.stopTranscription]
    if recorderStopThrows then
      ⟨s4, steps4 ++ [StopStep.stopRecorder], some "recorder stop threw"⟩
    else
      let s5 := { s4 with mediaRecorderActive := false }
      let steps5 := steps4 ++ [StopStep.stopRecorder, StopStep.stopTracks]
      if backendStopOk = false then
        ⟨s5, steps5 ++ [StopStep.backendStop], some "HTTP error"⟩
      else
        let s6 := { s5 with currentRecordingId := none
                            audioQueue := []
                            accumulatedAudio := [] }
        ⟨s6, steps5 ++ [StopStep.backendStop, StopStep.cleanup], none⟩

/-- The response object of the health endpoint. -/
structure HealthStatus where
  status : String
  service : String
deriving Repr, DecidableEq

/-- `healthCheck`: forwards the backend `/health` response when the request
succeeds; when it throws, resolves with the fabricated
`{ status: 'connected', service: 'audio-backend' }` after a 500 ms delay.
The result pairs the value the caller observes with the added delay. -/
def healthCheck (backend : Except String HealthStatus) : HealthStatus × Nat :=
  match backend with
  | .ok r => (r, 0)
  | .error _ => (⟨"connected", "audio-backend"⟩, 500)

/-- Events of the cooperative timeline during an active session. -/
inductive Event
  | dataAvailable (size : Nat) (frag : Frag)
  | tick (now : Nat)
  | speechFinal (results : List SpeechResult)
  | complete (success : Bool)
deriving Repr, DecidableEq

/-- One event step: the interval callback only runs while the interval is
installed; `complete` fires the oldest scheduled `onloadend` callback. -/
def step (e : Event) (s : ServiceState) : ServiceState :=
  match e with
  | .dataAvailable size f => ondataavailable size f s
  | .tick now => if s.processingActive then processingTick now s else s
  | .speechFinal rs => onresult rs s
  | .complete ok => completePendingUpload ok s

/-- Run a list of events in order. -/
def run (events : List Event) (s : ServiceState) : ServiceState :=
  events.foldl (fun st e => step e st) s

/-- Events that never let an upload linger: used for the synchronous
interleaving in which every initiated flush completes (successfully) before
anything else happens. -/
inductive SyncEvent
  | dataAvailable (size : Nat) (frag : Frag)
  | tick (now : Nat)
  | speechFinal (results : List SpeechResult)
deriving Repr, DecidableEq

/-- View a synchronous event as a plain event. -/
def SyncEvent.toEvent : SyncEvent → Event
  | .dataAvailable size f => .dataAvailable size f
  | .tick now => .tick now
  | .speechFinal rs => .speechFinal rs

/-- One synchronous step: the event, then the immediate successful
completion of any flush it initiated. -/
def syncStep (e : SyncEvent) (s : ServiceState) : ServiceState :=
  completePendingUpload true (step e.toEvent s)

/-- Run a list of synchronous events in order. -/
def syncRun (events : List SyncEvent) (s : ServiceState) : ServiceState :=
  events.foldl (fun st e => syncStep e st) s

/-- Concatenation of a list of fragment lists. -/
def concatAll (l : List (List Frag)) : List Frag :=
  l.foldr (fun a b => a ++ b) []

/-- All fragments sent off in chunk-upload requests so far, in order. -/
def uploadedConcat (s : ServiceState) : List Frag :=
  concatAll (s.uploadCalls.map (fun c => c.payload))

/-- Conservation of fragments: everything captured this session is exactly
the concatenation of the uploaded payloads, then the accumulation buffer,
then the capture queue — no loss, duplication or reordering. -/
def Balanced (s : ServiceState) : Prop :=
  uploadedConcat s ++ (s.accumulatedAudio ++ s.audioQueue) = s.audioChunks

/-- A freshly started session used as the concrete scenario state. -/
def startedState : ServiceState := startRecording "rec1" 0 true initState

/-- Interleaving in which fragment 0 is drained, a speech-boundary flush is
initiated, fragment 1 arrives and is drained, and only then does the
flush's upload complete successfully. -/
def c1Trace : List Event :=
  [ .dataAvailable 100 0, .tick 250,
    .speechFinal [⟨true, "hi"⟩],
    .dataAvailable 100 1, .tick 500,
    .complete true ]

/-- A short synchronous run used to instantiate the conservation theorem:
two fragments drained, then a speech-boundary flush. -/
def c1WitnessEvents : List SyncEvent :=
  [ .dataAvailable 100 0, .tick 250,
    .dataAvailable 100 1, .tick 500,
    .speechFinal [⟨true, "ok"⟩] ]

/-- The spec's timeout scenario: 12 fragments of 250 ms arriving over 3 s,
one processing tick after each arrival, no speech-boundary event. -/
def c2Trace : List Event :=
  [ .dataAvailable 100 0, .tick 250,
    .dataAvailable 100 1, .tick 500,
    .dataAvailable 100 2, .tick 750,
    .dataAvailable 100 3, .tick 1000,
    .dataAvailable 100 4, .tick 1250,
    .dataAvailable 100 5, .tick 1500,
    .dataAvailable 100 6, .tick 1750,
    .dataAvailable 100 7, .tick 2000,
    .dataAvailable 100 8, .tick 2250,
    .dataAvailable 100 9, .tick 2500,
    .dataAvailable 100 10, .tick 2750,
    .dataAvailable 100 11, .tick 3000 ]

/-- A session state with one fragment already drained into the accumulation
buffer. -/
def c3State : ServiceState := { startedState with accumulatedAudio := [0] }

/-- Extension of the timeout scenario by a 13th fragment and tick at
t = 3250 ms: more than the phrase timeout has elapsed since the session's
last (indeed, only hypothetical) flush, yet no flush fires. -/
def c7Trace : List Event :=
  c2Trace ++ [ .dataAvailable 100 12, .tick 3250 ]

/-- Start, then the spec's 2-fragment speech scenario: two fragments drained
and a final speech result before any timeout. -/
def c6Trace : List Event :=
  [ .dataAvailable 100 0, .tick 250,
    .dataAvailable 100 1, .tick 500,
    .speechFinal [⟨true, "hello world"⟩] ]

/-- Stop-immediately-after-start state: one fragment captured and still
sitting in the capture queue, no tick has drained it yet. -/
def c5State : ServiceState := ondataavailable 100 0 startedState

/-- An active session with one fragment in the accumulation buffer, used to
exercise the stop path. -/
def c8State : ServiceState := { startedState with accumulatedAudio := [0] }

theorem concatAll_append (l : List (List Frag)) (x : List Frag) :
    concatAll (l ++ [x]) = concatAll l ++ x := by
  induction l with
  | nil => simp [concatAll]
  | cons a t ih =>
      simp only [concatAll, List.foldr_cons, List.cons_append] at ih ⊢
      rw [ih, List.append_assoc]

theorem completePendingUpload_nil (ok : Bool) (t : ServiceState)
    (h : t.pending = []) : completePendingUpload ok t = t := by
  unfold completePendingUpload
  rw [h]

theorem sync_flush_eq (trig : String) (s : ServiceState) (hp : s.pending = []) :
    completePendingUpload true (sendAccumulatedAudio trig s) =
      if s.accumulatedAudio = [] ∨ s.currentRecordingId = none then s
      else { s with accumulatedAudio := [],
                    uploadCalls := s.uploadCalls ++
                      [⟨s.currentRecordingId, s.accumulatedAudio, trig,
                        s.accumulatedAudio.length, true⟩] } := by
  by_cases h : s.accumulatedAudio = [] ∨ s.currentRecordingId = none
  · simp [sendAccumulatedAudio, completePendingUpload, h, hp]
  · simp [sendAccumulatedAudio, completePendingUpload, h, hp]

theorem sync_flush_fail_eq (trig : String) (s : ServiceState) (hp : s.pending = []) :
    completePendingUpload false (sendAccumulatedAudio trig s) =
      if s.accumulatedAudio = [] ∨ s.currentRecordingId = none then s
      else { s with uploadCalls := s.uploadCalls ++
                      [⟨s.currentRecordingId, s.accumulatedAudio, trig,
                        s.accumulatedAudio.length, false⟩],
                    errorsLogged := s.errorsLogged + 1 } := by
  by_cases h : s.accumulatedAudio = [] ∨ s.currentRecordingId = none
  · simp [sendAccumulatedAudio, completePendingUpload, h, hp]
  · simp [sendAccumulatedAudio, completePendingUpload, h, hp]

theorem sendAccumulatedAudio_rid (t : String) (x : ServiceState) :
    (sendAccumulatedAudio t x).currentRecordingId = x.currentRecordingId := by
  unfold sendAccumulatedAudio
  split
  · rfl
  · rfl

theorem sync_flush_true_result (t : String) (x : ServiceState)
    (hp : x.pending = []) (hA : x.accumulatedAudio ≠ [])
    (hid : x.currentRecordingId ≠ none) :
    (completePendingUpload true (sendAccumulatedAudio t x)).uploadCalls =
      x.uploadCalls ++
        [⟨x.currentRecordingId, x.accumulatedAudio, t,
          x.accumulatedAudio.length, true⟩] ∧
    (completePendingUpload true (sendAccumulatedAudio t x)).accumulatedAudio = [] := by
  rw [sync_flush_eq t x hp, if_neg (by simp [hA, hid])]
  exact ⟨rfl, rfl⟩

theorem completePendingUpload_lpt (ok : Bool) (s : ServiceState) (n : Nat) :
    completePendingUpload ok { s with lastProcessTime := n } =
      { completePendingUpload ok s with lastProcessTime := n } := by
  unfold completePendingUpload
  cases h : s.pending with
  | nil => simp [h]
  | cons p rest => cases ok <;> simp [h]

theorem balanced_lpt (s : ServiceState) (n : Nat) :
    Balanced { s with lastProcessTime := n } ↔ Balanced s := Iff.rfl

theorem sync_flush_preserves (trig : String) (s : ServiceState)
    (hp : s.pending = []) (hb : Balanced s) :
    (completePendingUpload true (sendAccumulatedAudio trig s)).pending = [] ∧
    Balanced (completePendingUpload true (sendAccumulatedAudio trig s)) := by
  rw [sync_flush_eq trig s hp]
  by_cases h : s.accumulatedAudio = [] ∨ s.currentRecordingId = none
  · rw [if_pos h]
    exact ⟨hp, hb⟩
  · rw [if_neg h]
    refine ⟨hp, ?_⟩
    simp only [Balanced, uploadedConcat] at hb ⊢
    simp only [List.map_append, List.map_cons, List.map_nil]
    rw [concatAll_append]
    simpa [List.append_assoc] using hb

theorem syncStep_preserves (e : SyncEvent) (s : ServiceState)
    (hp : s.pending = []) (hb : Balanced s) :
    (syncStep e s).pending = [] ∧ Balanced (syncStep e s) := by
  cases e with
  | dataAvailable size f =>
      show (completePendingUpload true (ondataavailable size f s)).pending = [] ∧
        Balanced (completePendingUpload true (ondataavailable size f s))
      unfold ondataavailable
      by_cases hs : size > 0
      · rw [if_pos hs]
        have hx : ({ s with audioQueue := s.audioQueue ++ [f],
                            audioChunks := s.audioChunks ++ [f] } : ServiceState).pending = [] := hp
        rw [completePendingUpload_nil true _ hx]
        refine ⟨hp, ?_⟩
        simp only [Balanced, uploadedConcat] at hb ⊢
        rw [← hb]
        simp [List.append_assoc]
      · rw [if_neg hs, completePendingUpload_nil true s hp]
        exact ⟨hp, hb⟩
  | tick now =>
      show (completePendingUpload true
        (if s.processingActive = true then processingTick now s else s)).pending = [] ∧
        Balanced (completePendingUpload true
          (if s.processingActive = true then processingTick now s else s))
      by_cases hact : s.processingActive = true
      · rw [if_pos hact]
        unfold processingTick
        by_cases hq : s.audioQueue = []
        · rw [if_pos hq]
          by_cases hcond : s.accumulatedAudio ≠ [] ∧ now - s.lastProcessTime > s.phraseTimeout
          · rw [if_pos hcond]
            exact sync_flush_preserves "idle_timeout" s hp hb
          · rw [if_neg hcond, completePendingUpload_nil true s hp]
            exact ⟨hp, hb⟩
        · rw [if_neg hq]
          have hbd : Balanced { s with audioQueue := [],
                                       accumulatedAudio := s.accumulatedAudio ++ s.audioQueue } := by
            simp only [Balanced, uploadedConcat] at hb ⊢
            simpa [List.append_assoc] using hb
          by_cases ht : now - s.lastProcessTime > s.phraseTimeout
          · rw [if_pos ht, completePendingUpload_lpt]
            have h2 := sync_flush_preserves "phrase_timeout"
              { s with audioQueue := [],
                       accumulatedAudio := s.accumulatedAudio ++ s.audioQueue } hp hbd
            exact ⟨h2.1, (balanced_lpt _ now).mpr h2.2⟩
          · rw [if_neg ht]
            have hq2 : ({ s with audioQueue := [],
                                 accumulatedAudio := s.accumulatedAudio ++ s.audioQueue,
                                 lastProcessTime := now } : ServiceState).pending = [] := hp
            rw [completePendingUpload_nil true _ hq2]
            exact ⟨hp, hbd⟩
      · rw [if_neg hact, completePendingUpload_nil true s hp]
        exact ⟨hp, hb⟩
  | speechFinal rs =>
      show (completePendingUpload true (onresult rs s)).pending = [] ∧
        Balanced (completePendingUpload true (onresult rs s))
      unfold onresult
      by_cases htr : trimTruthy (finalTranscriptOf rs) = true
      · rw [if_pos htr]
        exact sync_flush_preserves (finalTranscriptOf rs) s hp hb
      · rw [if_neg htr, completePendingUpload_nil true s hp]
        exact ⟨hp, hb⟩

/-- C1 counterexample: the flushed payload is NOT the concatenation of the
fragments delivered between two flushes under all interleavings.  In
`c1Trace`, fragment 1 is drained into the accumulation buffer after a
speech-triggered flush is initiated but before its upload completes; the
completed upload carries only `[0]`, yet clears the whole buffer, so
fragment 1 (delivered, recorded in `audioChunks`) appears in no payload and
can never be flushed again (buffer, queue and pending are all empty). -/
theorem c1_async_fragment_loss :
    (run c1Trace startedState).audioChunks = [0, 1] ∧
    (run c1Trace startedState).uploadCalls.map (fun c => c.payload) = [[0]] ∧
    (run c1Trace startedState).accumulatedAudio = [] ∧
    (run c1Trace startedState).audioQueue = [] ∧
    (run c1Trace startedState).pending = [] := by
  decide

/-- C1 (amended): in every interleaving where each initiated flush's upload
completes successfully before the next event (the synchronous
interleaving), fragment conservation holds: the concatenation of the
uploaded payloads, followed by the accumulation buffer and the capture
queue, equals the captured fragments in arrival order — so each flushed
payload is exactly the concatenation of the fragments drained since the
previous flush, with no loss, duplication or reordering. -/
theorem c1_sync_flush_exact_concatenation (events : List SyncEvent)
    (s : ServiceState) (hp : s.pending = []) (hb : Balanced s) :
    (syncRun events s).pending = [] ∧ Balanced (syncRun events s) := by
  induction events generalizing s with
  | nil => exact ⟨hp, hb⟩
  | cons e es ih =>
      have h' : syncRun (e :: es) s = syncRun es (syncStep e s) := rfl
      rw [h']
      have h := syncStep_preserves e s hp hb
      exact ih (syncStep e s) h.1 h.2

/-- Witness for C1's amended theorem at a concrete run. -/
theorem c1_sync_flush_exact_concatenation_witness :
    (syncRun c1WitnessEvents startedState).pending = [] ∧
    Balanced (syncRun c1WitnessEvents startedState) :=
  c1_sync_flush_exact_concatenation c1WitnessEvents startedState rfl rfl

/-- C2: evaluation of the code at the spec's own scenario (12 fragments of
250 ms over 3 s, a tick after each, no speech event): contrary to the
claim, NO flush fires — no upload call is made, none is pending, and the
buffer still holds all 12 fragments — because the loop measures elapsed
time since the last fragment-draining tick (at most 250 ms here), not since
the last flush. -/
theorem c2_scenario_no_flush_fires :
    (run c2Trace startedState).uploadCalls = [] ∧
    (run c2Trace startedState).pending = [] ∧
    (run c2Trace startedState).accumulatedAudio =
      [0, 1, 2, 3, 4, 5, 6, 7, 8, 9, 10, 11] := by
  decide

/-- C3 counterexample: a flush attempt whose upload fails does NOT leave the
buffer empty — the upload request is made (one call is recorded) and the
accumulation buffer still holds its fragment afterwards. -/
theorem c3_failed_flush_keeps_buffer :
    (sendAccumulatedAudioSync false "phrase_timeout" c3State).accumulatedAudio
        = [0] ∧
    (sendAccumulatedAudioSync false "phrase_timeout" c3State).uploadCalls.length
        = 1 := by
  decide

/-- C3 (amended): the buffer is cleared only when the asynchronous upload
completes SUCCESSFULLY; a failed flush attempt leaves the buffer exactly as
it was, and flush initiation alone never clears it. -/
theorem c3_buffer_cleared_only_on_success (trig : String) (s : ServiceState)
    (hp : s.pending = []) (hid : s.currentRecordingId ≠ none) :
    (sendAccumulatedAudioSync true trig s).accumulatedAudio = [] ∧
    (sendAccumulatedAudioSync false trig s).accumulatedAudio =
      s.accumulatedAudio ∧
    (sendAccumulatedAudio trig s).accumulatedAudio = s.accumulatedAudio := by
  refine ⟨?_, ?_, ?_⟩
  · show (completePendingUpload true (sendAccumulatedAudio trig s)).accumulatedAudio = []
    rw [sync_flush_eq trig s hp]
    by_cases hA : s.accumulatedAudio = []
    · rw [if_pos (Or.inl hA)]
      exact hA
    · rw [if_neg (by simp [hA, hid])]
  · show (completePendingUpload false (sendAccumulatedAudio trig s)).accumulatedAudio = s.accumulatedAudio
    rw [sync_flush_fail_eq trig s hp]
    by_cases h : s.accumulatedAudio = [] ∨ s.currentRecordingId = none
    · rw [if_pos h]
    · rw [if_neg h]
  · unfold sendAccumulatedAudio
    by_cases h : s.accumulatedAudio = [] ∨ s.currentRecordingId = none
    · rw [if_pos h]
    · rw [if_neg h]

/-- Witness for C3's amended theorem at a concrete state. -/
theorem c3_buffer_cleared_only_on_success_witness :
    (sendAccumulatedAudioSync true "idle_timeout" c3State).accumulatedAudio = [] ∧
    (sendAccumulatedAudioSync false "idle_timeout" c3State).accumulatedAudio =
      c3State.accumulatedAudio ∧
    (sendAccumulatedAudio "idle_timeout" c3State).accumulatedAudio =
      c3State.accumulatedAudio :=
  c3_buffer_cleared_only_on_success "idle_timeout" c3State rfl (by decide)

/-- C4: invoking the flush operation on an empty accumulation buffer is a
no-op (the state, including the pending-callback list through which every
upload call must pass, is completely unchanged, so no upload call is made),
and it stays a no-op under repeated invocation from either trigger path. -/
theorem c4_empty_buffer_flush_noop (trig trig2 : String) (s : ServiceState)
    (h : s.accumulatedAudio = []) :
    sendAccumulatedAudio trig s = s ∧
    sendAccumulatedAudio trig2 (sendAccumulatedAudio trig s) = s := by
  have h1 : sendAccumulatedAudio trig s = s := by
    unfold sendAccumulatedAudio
    rw [if_pos (Or.inl h)]
  refine ⟨h1, ?_⟩
  rw [h1]
  unfold sendAccumulatedAudio
  rw [if_pos (Or.inl h)]

/-- Witness for C4 at the started state (empty buffer), invoked from the
timeout path and then the speech path. -/
theorem c4_empty_buffer_flush_noop_witness :
    sendAccumulatedAudio "idle_timeout" startedState = startedState ∧
    sendAccumulatedAudio "hello"
      (sendAccumulatedAudio "idle_timeout" startedState) = startedState :=
  c4_empty_buffer_flush_noop "idle_timeout" "hello" startedState rfl

/-- C5 counterexample: stop immediately after start, with one fragment
captured (it sits in the capture queue, no tick drained it yet).  Contrary
to the claim, `stopRecording` completes without a single upload call and
without scheduling one — the final flush inspects only the accumulation
buffer (empty here) and the cleanup discards the queued fragment. -/
theorem c5_stop_drops_queued_fragment :
    c5State.audioChunks = [0] ∧
    (stopRecording false true c5State).error = none ∧
    (stopRecording false true c5State).state.uploadCalls = [] ∧
    (stopRecording false true c5State).state.pending = [] ∧
    (stopRecording false true c5State).state.audioQueue = [] := by
  decide

/-- C5 (amended): stopping flushes only the accumulation buffer, and only
when it is non-empty, with trigger string `"Final chunk"` (not `"final"`);
fragments still sitting in the capture queue are discarded without any
upload (the queue is cleared by the cleanup, with no upload call made for
it). -/
theorem c5_stop_flushes_buffer_final_chunk (s : ServiceState) (rid : String)
    (hact : s.mediaRecorderActive = true)
    (hid : s.currentRecordingId = some rid) (hp : s.pending = []) :
    (s.accumulatedAudio ≠ [] →
      (stopRecording false true s).state.pending =
        [⟨s.accumulatedAudio, "Final chunk"⟩]) ∧
    (s.accumulatedAudio = [] →
      (stopRecording false true s).state.pending = [] ∧
      (stopRecording false true s).state.uploadCalls = s.uploadCalls) ∧
    (stopRecording false true s).state.audioQueue = [] := by
  have hguard : ¬ (s.mediaRecorderActive = false ∨ s.currentRecordingId = none) := by
    simp [hact, hid]
  refine ⟨?_, ?_, ?_⟩
  · intro hA
    simp [stopRecording, hguard, hact, hA, sendAccumulatedAudio, hid, hp]
  · intro hA
    simp [stopRecording, hguard, hact, hid, hA, hp]
  · by_cases hA : s.accumulatedAudio = []
    · simp [stopRecording, hguard, hact, hid, hA]
    · simp [stopRecording, hguard, hact, hA, sendAccumulatedAudio, hid, hp]

/-- Witness for C5's amended theorem at a concrete session state with one
drained fragment. -/
theorem c5_stop_flushes_buffer_final_chunk_witness :
    (c3State.accumulatedAudio ≠ [] →
      (stopRecording false true c3State).state.pending =
        [⟨c3State.accumulatedAudio, "Final chunk"⟩]) ∧
    (c3State.accumulatedAudio = [] →
      (stopRecording false true c3State).state.pending = [] ∧
      (stopRecording false true c3State).state.uploadCalls = c3State.uploadCalls) ∧
    (stopRecording false true c3State).state.audioQueue = [] :=
  c5_stop_flushes_buffer_final_chunk c3State "rec1" rfl rfl rfl

/-- C6: evaluation at the failing input.  Two fragments are drained and a
final speech result with transcript "hello world" fires before any
timeout: a flush is initiated containing exactly those two fragments, but
the trigger field handed to the upload is the transcript text itself, not
the documented constant `"speech_detected"`. -/
theorem c6_speech_trigger_is_transcript :
    (run c6Trace startedState).pending = [⟨[0, 1], "hello world"⟩] ∧
    (run c6Trace startedState).uploadCalls = [] ∧
    (completePendingUpload true (run c6Trace startedState)).uploadCalls.map
        (fun c => c.trigger) = ["hello world"] ∧
    "hello world" ≠ "speech_detected" := by
  decide

/-- C7 counterexample: a tick at t = 3250 ms drains a fresh fragment while
the buffer is non-empty and more than the 3000 ms phrase timeout has
elapsed since the last flush (no flush has occurred at all since the
session started at t = 0), yet no flush is triggered: the loop measures
elapsed time against the last fragment-draining tick, which is only 250 ms
back. -/
theorem c7_no_flush_despite_elapsed_beyond_timeout :
    (run c7Trace startedState).uploadCalls = [] ∧
    (run c7Trace startedState).pending = [] ∧
    (run c7Trace startedState).accumulatedAudio ≠ [] ∧
    startedState.phraseTimeout = 3000 ∧ startedState.lastProcessTime = 0 := by
  decide

/-- C7 (amended): on a tick at time `now`, a flush is triggered exactly when
more than `phraseTimeout` ms have elapsed since `lastProcessTime` — the
time of the last tick that drained fragments, not of the last flush — with
reason `"phrase_timeout"` when fragments were drained this tick and
`"idle_timeout"` when none arrived and the buffer is non-empty. -/
theorem c7_tick_flush_characterization (now : Nat) (s : ServiceState)
    (rid : String) (hid : s.currentRecordingId = some rid) :
    (s.audioQueue ≠ [] → now - s.lastProcessTime > s.phraseTimeout →
      (processingTick now s).pending =
        s.pending ++ [⟨s.accumulatedAudio ++ s.audioQueue, "phrase_timeout"⟩]) ∧
    (s.audioQueue ≠ [] → ¬ (now - s.lastProcessTime > s.phraseTimeout) →
      (processingTick now s).pending = s.pending) ∧
    (s.audioQueue = [] → s.accumulatedAudio ≠ [] →
      now - s.lastProcessTime > s.phraseTimeout →
      (processingTick now s).pending =
        s.pending ++ [⟨s.accumulatedAudio, "idle_timeout"⟩]) ∧
    (s.audioQueue = [] →
      ¬ (s.accumulatedAudio ≠ [] ∧ now - s.lastProcessTime > s.phraseTimeout) →
      (processingTick now s).pending = s.pending) := by
  refine ⟨?_, ?_, ?_, ?_⟩
  · intro hq ht
    unfold processingTick
    rw [if_neg hq, if_pos ht]
    show (sendAccumulatedAudio "phrase_timeout"
      { s with audioQueue := [],
               accumulatedAudio := s.accumulatedAudio ++ s.audioQueue }).pending = _
    unfold sendAccumulatedAudio
    rw [if_neg (by simp [hq, hid])]
  · intro hq ht
    unfold processingTick
    rw [if_neg hq, if_neg ht]
  · intro hq hA ht
    unfold processingTick
    rw [if_pos hq, if_pos ⟨hA, ht⟩]
    unfold sendAccumulatedAudio
    rw [if_neg (by simp [hA, hid])]
  · intro hq hcond
    unfold processingTick
    rw [if_pos hq, if_neg hcond]

/-- Witness for C7's amended theorem: a tick that drains a fragment after a
gap longer than the phrase timeout does schedule a "phrase_timeout"
flush. -/
theorem c7_tick_flush_characterization_witness :
    ((c5State.audioQueue ≠ [] → 4000 - c5State.lastProcessTime > c5State.phraseTimeout →
      (processingTick 4000 c5State).pending =
        c5State.pending ++ [⟨c5State.accumulatedAudio ++ c5State.audioQueue, "phrase_timeout"⟩]) ∧
    (c5State.audioQueue ≠ [] → ¬ (4000 - c5State.lastProcessTime > c5State.phraseTimeout) →
      (processingTick 4000 c5State).pending = c5State.pending) ∧
    (c5State.audioQueue = [] → c5State.accumulatedAudio ≠ [] →
      4000 - c5State.lastProcessTime > c5State.phraseTimeout →
      (processingTick 4000 c5State).pending =
        c5State.pending ++ [⟨c5State.accumulatedAudio, "idle_timeout"⟩]) ∧
    (c5State.audioQueue = [] →
      ¬ (c5State.accumulatedAudio ≠ [] ∧ 4000 - c5State.lastProcessTime > c5State.phraseTimeout) →
      (processingTick 4000 c5State).pending = c5State.pending)) :=
  c7_tick_flush_characterization 4000 c5State "rec1" rfl

/-- C8 counterexample: the claimed order (timer, capture source, phrase
detector, final flush) and the claimed guaranteed execution are both
false at a concrete active session: the code stops the phrase detector and
performs the final flush BEFORE stopping the capture source, and a throw in
`mediaRecorder.stop()` aborts the remaining steps (tracks are never
stopped), as does a throw in the backend stop request (the cleanup never
runs) — a single try block, not independent scoped cleanup. -/
theorem c8_stop_order_and_shortcircuit :
    (stopRecording false true c8State).steps =
      [.stopProcessingLoop, .stopSpeech, .finalFlush, .stopTranscription,
       .stopRecorder, .stopTracks, .backendStop, .cleanup] ∧
    (stopRecording true true c8State).steps.contains .stopTracks = false ∧
    (stopRecording true true c8State).error = some "recorder stop threw" ∧
    (stopRecording false false c8State).steps.contains .cleanup = false ∧
    (stopRecording false false c8State).state.currentRecordingId = some "rec1" := by
  decide

/-- C8 (amended): stopping an active session performs, in order: cancel the
periodic timer, stop the phrase detector, final flush (when the buffer is
non-empty), stop transcription polling, stop the capture recorder, stop
the tracks, send the backend stop request, clear local state — all inside
one try block, so a throw in the recorder stop skips every later step and
a throw in the backend request skips the state cleanup. -/
theorem c8_stop_step_sequence (s : ServiceState) (rid : String)
    (hact : s.mediaRecorderActive = true)
    (hid : s.currentRecordingId = some rid)
    (hA : s.accumulatedAudio ≠ []) :
    (stopRecording false true s).steps =
      [.stopProcessingLoop, .stopSpeech, .finalFlush, .stopTranscription,
       .stopRecorder, .stopTracks, .backendStop, .cleanup] ∧
    (stopRecording false true s).error = none ∧
    (stopRecording true true s).steps =
      [.stopProcessingLoop, .stopSpeech, .finalFlush, .stopTranscription,
       .stopRecorder] ∧
    (stopRecording true true s).error = some "recorder stop threw" ∧
    (stopRecording false false s).steps =
      [.stopProcessingLoop, .stopSpeech, .finalFlush, .stopTranscription,
       .stopRecorder, .stopTracks, .backendStop] ∧
    (stopRecording false false s).state.currentRecordingId = some rid := by
  have hguard : ¬ (s.mediaRecorderActive = false ∨ s.currentRecordingId = none) := by
    simp [hact, hid]
  refine ⟨?_, ?_, ?_, ?_, ?_, ?_⟩ <;>
    simp [stopRecording, hguard, hact, hA, hid, sendAccumulatedAudio_rid]

/-- Witness for C8's amended theorem at a concrete active session. -/
theorem c8_stop_step_sequence_witness :
    ((stopRecording false true c8State).steps =
      [.stopProcessingLoop, .stopSpeech, .finalFlush, .stopTranscription,
       .stopRecorder, .stopTracks, .backendStop, .cleanup] ∧
    (stopRecording false true c8State).error = none ∧
    (stopRecording true true c8State).steps =
      [.stopProcessingLoop, .stopSpeech, .finalFlush, .stopTranscription,
       .stopRecorder] ∧
    (stopRecording true true c8State).error = some "recorder stop threw" ∧
    (stopRecording false false c8State).steps =
      [.stopProcessingLoop, .stopSpeech, .finalFlush, .stopTranscription,
       .stopRecorder, .stopTracks, .backendStop] ∧
    (stopRecording false false c8State).state.currentRecordingId = some "rec1") :=
  c8_stop_step_sequence c8State "rec1" rfl rfl (by decide)

/-- C9: an upload failure during a flush is non-fatal: the session state
(recording id, processing loop, capture flags, queue, clock) is unchanged,
the error is logged, no dedicated retry is scheduled (no pending upload
remains), the buffer keeps the failed data, and the next natural flush —
after a new fragment arrives and is drained — uploads the failed data
together with the newer fragment. -/
theorem c9_upload_failure_nonfatal (s : ServiceState) (trig trig2 rid : String)
    (g : Frag) (now2 : Nat)
    (hp : s.pending = []) (hid : s.currentRecordingId = some rid)
    (hA : s.accumulatedAudio ≠ []) (hq : s.audioQueue = [])
    (hnow : ¬ (now2 - s.lastProcessTime > s.phraseTimeout)) :
    (sendAccumulatedAudioSync false trig s).currentRecordingId = some rid ∧
    (sendAccumulatedAudioSync false trig s).processingActive = s.processingActive ∧
    (sendAccumulatedAudioSync false trig s).mediaRecorderActive = s.mediaRecorderActive ∧
    (sendAccumulatedAudioSync false trig s).isListening = s.isListening ∧
    (sendAccumulatedAudioSync false trig s).audioQueue = s.audioQueue ∧
    (sendAccumulatedAudioSync false trig s).lastProcessTime = s.lastProcessTime ∧
    (sendAccumulatedAudioSync false trig s).pending = [] ∧
    (sendAccumulatedAudioSync false trig s).errorsLogged = s.errorsLogged + 1 ∧
    (sendAccumulatedAudioSync false trig s).accumulatedAudio = s.accumulatedAudio ∧
    (sendAccumulatedAudioSync true trig2
        (processingTick now2
          (ondataavailable 1 g (sendAccumulatedAudioSync false trig s)))).uploadCalls =
      (sendAccumulatedAudioSync false trig s).uploadCalls ++
        [⟨some rid, s.accumulatedAudio ++ [g], trig2,
          (s.accumulatedAudio ++ [g]).length, true⟩] ∧
    (sendAccumulatedAudioSync true trig2
        (processingTick now2
          (ondataavailable 1 g (sendAccumulatedAudioSync false trig s)))).accumulatedAudio = [] := by
  have hf : sendAccumulatedAudioSync false trig s =
      { s with uploadCalls := s.uploadCalls ++
                 [⟨s.currentRecordingId, s.accumulatedAudio, trig,
                   s.accumulatedAudio.length, false⟩],
               errorsLogged := s.errorsLogged + 1 } := by
    show completePendingUpload false (sendAccumulatedAudio trig s) = _
    rw [sync_flush_fail_eq trig s hp, if_neg (by simp [hA, hid])]
  rw [hf]
  refine ⟨hid, rfl, rfl, rfl, rfl, rfl, hp, rfl, rfl, ?_, ?_⟩
  · show (completePendingUpload true (sendAccumulatedAudio trig2 _)).uploadCalls = _
    unfold ondataavailable
    rw [if_pos (by norm_num)]
    unfold processingTick
    rw [if_neg (by simp [hq]), if_neg (by simpa [hq] using hnow)]
    refine ((sync_flush_true_result trig2 _ (by exact hp) (by simp) (by simp [hid])).1).trans ?_
    simp [hq, hid]
  · show (completePendingUpload true (sendAccumulatedAudio trig2 _)).accumulatedAudio = _
    unfold ondataavailable
    rw [if_pos (by norm_num)]
    unfold processingTick
    rw [if_neg (by simp [hq]), if_neg (by simpa [hq] using hnow)]
    exact (sync_flush_true_result trig2 _ (by exact hp) (by simp) (by simp [hid])).2

/-- Witness for C9 at a concrete session state. -/
theorem c9_upload_failure_nonfatal_witness :
    ((sendAccumulatedAudioSync false "idle_timeout" c3State).currentRecordingId = some "rec1" ∧
    (sendAccumulatedAudioSync false "idle_timeout" c3State).processingActive = c3State.processingActive ∧
    (sendAccumulatedAudioSync false "idle_timeout" c3State).mediaRecorderActive = c3State.mediaRecorderActive ∧
    (sendAccumulatedAudioSync false "idle_timeout" c3State).isListening = c3State.isListening ∧
    (sendAccumulatedAudioSync false "idle_timeout" c3State).audioQueue = c3State.audioQueue ∧
    (sendAccumulatedAudioSync false "idle_timeout" c3State).lastProcessTime = c3State.lastProcessTime ∧
    (sendAccumulatedAudioSync false "idle_timeout" c3State).pending = [] ∧
    (sendAccumulatedAudioSync false "idle_timeout" c3State).errorsLogged = c3State.errorsLogged + 1 ∧
    (sendAccumulatedAudioSync false "idle_timeout" c3State).accumulatedAudio = c3State.accumulatedAudio ∧
    (sendAccumulatedAudioSync true "phrase_timeout"
        (processingTick 500
          (ondataavailable 1 7 (sendAccumulatedAudioSync false "idle_timeout" c3State)))).uploadCalls =
      (sendAccumulatedAudioSync false "idle_timeout" c3State).uploadCalls ++
        [⟨some "rec1", c3State.accumulatedAudio ++ [7], "phrase_timeout",
          (c3State.accumulatedAudio ++ [7]).length, true⟩] ∧
    (sendAccumulatedAudioSync true "phrase_timeout"
        (processingTick 500
          (ondataavailable 1 7 (sendAccumulatedAudioSync false "idle_timeout" c3State)))).accumulatedAudio = []) :=
  c9_upload_failure_nonfatal c3State "idle_timeout" "phrase_timeout" "rec1" 7 500
    rfl rfl (by decide) rfl (by decide)

/-- C10: `healthCheck` never reports failure to its caller: when the backend
request throws it resolves, after a 500 ms delay, with the fabricated
`{ status := "connected", service := "audio-backend" }`, which is
indistinguishable from the response of a healthy backend reporting the same
value; when the request succeeds the response is forwarded unchanged. -/
theorem c10_healthCheck_fabricates_success (msg : String) (r : HealthStatus) :
    healthCheck (Except.error msg) = (⟨"connected", "audio-backend"⟩, 500) ∧
    (healthCheck (Except.error msg)).1 =
      (healthCheck (Except.ok ⟨"connected", "audio-backend"⟩)).1 ∧
    healthCheck (Except.ok r) = (r, 0) :=
  ⟨rfl, rfl, rfl⟩

end SphereAI
